import Mathlib

/-!
Shallow embedding of the KenPom team-ratings visualization pipeline
(`kenpom_plot.py`): data acquisition (`fetch_kenpom_data`), geometric
classification (`point_in_polygon` and the partition loop in `create_plot`),
and rendering (`create_plot`, `main`).

Real-valued metric coordinates are modelled as exact rationals.  Side effects
(HTTP request, filesystem writes, log statements) are modelled as an explicit
trace of `Action` values returned alongside the result, and fallible
operations return `Except`.
-/

namespace KenPom

/-- Metric-space points: (adjusted tempo, adjusted efficiency margin). -/
abbrev Point : Type := ℚ × ℚ

/-- Modelled from the spec: `point_in_polygon` in the source delegates to the
external geometry library call `matplotlib.path.Path(polygon).contains_point(point)`,
whose code is not part of this repository.  Following the spec (a
"standard ray-casting / winding test over the ordered vertex list"), an edge
from `a` to `b` contributes a crossing for the rightward ray from `p` exactly
when the edge spans the horizontal level of `p` (the two endpoint flags
`a.2 ≥ p.2` and `b.2 ≥ p.2` disagree) and the signed-area side test against
the edge agrees with the flag of the second endpoint.  This is the classic
Graphics-Gems crossing rule used by the library. -/
def crosses (p a b : Point) : Prop :=
  (¬ ((a.2 ≥ p.2) ↔ (b.2 ≥ p.2))) ∧
    ((((b.2 - p.2) * (a.1 - b.1)) ≥ ((b.1 - p.1) * (a.2 - b.2))) ↔ (b.2 ≥ p.2))

instance (p a b : Point) : Decidable (crosses p a b) := by
  unfold crosses
  infer_instance

/-- Number of edges of the list that cross the rightward ray from `p`. -/
def crossCount (p : Point) : List (Point × Point) → Nat
  | [] => 0
  | e :: es => (if crosses p e.1 e.2 then 1 else 0) + crossCount p es

/-- Edge walk of a polygon: consecutive vertex pairs, closed back to the
first vertex (the library implicitly closes an open path). -/
def edgeListAux (first prev : Point) : List Point → List (Point × Point)
  | [] => [(prev, first)]
  | w :: ws => (prev, w) :: edgeListAux first w ws

/-- Edge list of a polygon given by its ordered vertex list. -/
def edgeList : List Point → List (Point × Point)
  | [] => []
  | v :: vs => edgeListAux v v vs

/-- Point-in-polygon test: even-odd rule on the crossing count. -/
def point_in_polygon (p : Point) (poly : List Point) : Prop :=
  crossCount p (edgeList poly) % 2 = 1

instance (p : Point) (poly : List Point) : Decidable (point_in_polygon p poly) := by
  unfold point_in_polygon
  infer_instance

/-- Membership of `p` in the closed segment from `a` to `b`: collinearity
plus coordinatewise betweenness. -/
def OnSeg (p a b : Point) : Prop :=
  ((b.1 - a.1) * (p.2 - a.2) = (b.2 - a.2) * (p.1 - a.1)) ∧
    min a.1 b.1 ≤ p.1 ∧ p.1 ≤ max a.1 b.1 ∧ min a.2 b.2 ≤ p.2 ∧ p.2 ≤ max a.2 b.2

instance (p a b : Point) : Decidable (OnSeg p a b) := by
  unfold OnSeg
  infer_instance

/-- Membership of `p` in the boundary of the polygon: on some edge segment. -/
def OnBoundary (p : Point) (poly : List Point) : Prop :=
  ∃ e ∈ edgeList poly, OnSeg p e.1 e.2

/-- Consecutive (open, not closed) vertex pairs of a list. -/
def zipConsec : List Point → List (Point × Point)
  | [] => []
  | [_] => []
  | a :: b :: rest => (a, b) :: zipConsec (b :: rest)

/-- The fixed trapezoid from `create_plot`:
bottom left (64.5, 20), bottom right (70.2, 20), top right (72, 40),
top left (62.5, 40). -/
def trapezoid_points : List Point := [(64.5, 20), (70.2, 20), (72, 40), (62.5, 40)]

/-- Vertex centroid of a polygon (coordinatewise average of the vertices). -/
def centroidOf (l : List Point) : Point :=
  ((l.map Prod.fst).sum / l.length, (l.map Prod.snd).sum / l.length)

/-- One row of the ratings table: team name and its two metrics. -/
structure TeamRating where
  TeamName : String
  AdjTempo : ℚ
  AdjEM : ℚ
deriving DecidableEq

/-- The metric point of a row, as read off in the classification loop:
`(row[AdjTempo], row[AdjEM])`. -/
def rowPoint (r : TeamRating) : Point := (r.AdjTempo, r.AdjEM)

/-- The classification loop of `create_plot`: iterate the rows in order and
route each to the inside or outside collection according to
`point_in_polygon` against the fixed trapezoid.  The Python `for` loop that
appends to two lists is rendered as structural recursion producing the same
two lists. -/
def classify : List TeamRating → List TeamRating × List TeamRating
  | [] => ([], [])
  | r :: rs =>
    let rest := classify rs
    if point_in_polygon (rowPoint r) trapezoid_points then (r :: rest.1, rest.2)
    else (rest.1, r :: rest.2)

/-- Season label / date string for the title: Python `if year:` is falsy for
both `None` and `0`, and otherwise formats the string
`"{year}-{year+1} Season"`; in the falsy case the current date string is
used. -/
def date_str (year : Option Int) (now : String) : String :=
  match year with
  | some y => if y = 0 then now else toString y ++ "-" ++ toString (y + 1) ++ " Season"
  | none => now

/-- One Plotly scatter trace, restricted to the attributes the script sets. -/
structure Trace where
  xs : List ℚ
  ys : List ℚ
  mode : String
  fill : Option String
  fillcolor : Option String
  markerSymbol : Option String
  markerSize : Option ℚ
  markerColor : Option String
  text : List String
  hovertemplate : Option String
  hoverinfo : Option String
  name : String
  showlegend : Bool
deriving DecidableEq

/-- The figure, restricted to the attributes the claims are about. -/
structure Fig where
  titleText : String
  traces : List Trace
  width : Nat
  height : Nat
deriving DecidableEq

/-- Hover template shared by both marker traces: team name in bold, then the
two metrics formatted to one decimal.  (Literal braces of the Plotly
placeholder syntax are written with hexadecimal escapes.) -/
def hoverTemplate : String :=
  "<b>%\x7btext\x7d</b><br>" ++ "Tempo: %\x7bx:.1f\x7d<br>" ++
    "AdjEM: %\x7by:.1f\x7d<extra></extra>"

/-- The trapezoid outline trace: the four vertices with the first repeated to
close the path, drawn as lines with a semi-transparent fill and hover
disabled. -/
def polygonTrace : Trace where
  xs := [64.5, 70.2, 72, 62.5, 64.5]
  ys := [20, 20, 40, 40, 20]
  mode := "lines"
  fill := some "toself"
  fillcolor := some "rgba(0,0,0,0.1)"
  markerSymbol := none
  markerSize := none
  markerColor := none
  text := []
  hovertemplate := none
  hoverinfo := some "skip"
  name := "Highlighted Zone (Trapezoid)"
  showlegend := true

/-- Marker trace for the rows outside the trapezoid: small blue circles. -/
def outsideTrace (data : List TeamRating) : Trace where
  xs := data.map TeamRating.AdjTempo
  ys := data.map TeamRating.AdjEM
  mode := "markers"
  fill := none
  fillcolor := none
  markerSymbol := some "circle"
  markerSize := some 6
  markerColor := some "blue"
  text := data.map TeamRating.TeamName
  hovertemplate := some hoverTemplate
  hoverinfo := none
  name := "Outside Trapezoid"
  showlegend := true

/-- Marker trace for the rows inside the trapezoid: larger gold stars. -/
def insideTrace (data : List TeamRating) : Trace where
  xs := data.map TeamRating.AdjTempo
  ys := data.map TeamRating.AdjEM
  mode := "markers"
  fill := none
  fillcolor := none
  markerSymbol := some "star"
  markerSize := some 10
  markerColor := some "gold"
  text := data.map TeamRating.TeamName
  hovertemplate := some hoverTemplate
  hoverinfo := none
  name := "Inside Trapezoid"
  showlegend := true

/-- Figure construction inside `create_plot`: trapezoid outline first, then
the outside marker trace and the inside marker trace, each added only when
its point collection is non-empty (`if outside_data:` / `if inside_data:`);
the layout title stacks two fixed caption lines over the date string. -/
def buildFig (df : List TeamRating) (year : Option Int) (now : String) : Fig :=
  let inside := (classify df).1
  let outside := (classify df).2
  { titleText := "ROAD TO INDIANAPOLIS\n" ++ "Trapezoid of Excellence\n" ++ date_str year now
    traces :=
      [polygonTrace] ++
        (if outside.isEmpty then [] else [outsideTrace outside]) ++
        (if inside.isEmpty then [] else [insideTrace inside])
    width := 1200
    height := 800 }

/-- Effects of a run, recorded as an explicit trace. -/
inductive Action where
  | makedirs (dir : String)
  | httpGet (url : String) (authorization : String)
  | writeHtml (path : String) (fig : Fig)
  | writeImage (path : String) (fig : Fig)
  | logInfo (msg : String)
  | logWarning (msg : String)
  | logError (msg : String)
  | logTeamLine (name : String) (tempo adjem : ℚ)
deriving DecidableEq

/-- Predicate singling out the chart-artifact writes among the actions. -/
def isWriteAction : Action → Bool
  | .writeHtml _ _ => true
  | .writeImage _ _ => true
  | _ => false

/-- Predicate singling out the HTTP request among the actions. -/
def isHttpAction : Action → Bool
  | .httpGet _ _ => true
  | _ => false

/-- Configuration sources for the API key as the script can observe them:
the environment variable (`load_dotenv` has already merged any local `.env`
developer file into the environment at import time), and the Airflow
Variable lookup, which is `none` when Airflow is not importable or the
lookup raises, and `some v` when `Variable.get` returns `v`. -/
structure Config where
  envKey : Option String
  airflowLookup : Option (Option String)

/-- Python truthiness filter for an optional string: `None` and the empty
string both count as absent (`if not API_KEY:`). -/
def truthy : Option String → Option String
  | none => none
  | some s => if s = "" then none else some s

/-- Value produced by the Airflow branch of the credential lookup. -/
def airflowValue (cfg : Config) : Option String :=
  match cfg.airflowLookup with
  | none => none
  | some v => truthy v

/-- Credential resolution chain of `fetch_kenpom_data`: environment variable
first, then the Airflow Variable store. -/
def resolveApiKey (cfg : Config) : Option String :=
  match truthy cfg.envKey with
  | some k => some k
  | none => airflowValue cfg

/-- Error message raised when no credential resolves, naming the three
places a user could set it. -/
def apiKeyMessage : String :=
  "KENPOM_API_KEY not found. Please set it as:\n" ++
    "1. Environment variable: KENPOM_API_KEY\n" ++
    "2. Airflow Variable: Admin → Variables → Add \x27KENPOM_API_KEY\x27\n" ++
    "3. Or in .env file (for local development)"

/-- Failure modes of a run. -/
inductive PipelineError where
  | configError (msg : String)
  | httpError (status : Nat) (body : String)
  | renderError (msg : String)
deriving DecidableEq

/-- Rendering of an error for the entry-point log line. -/
def errMsg : PipelineError → String
  | .configError m => m
  | .httpError s _ => toString s ++ " Error"
  | .renderError m => m

/-- Python `str` of the optional year as interpolated into the request URL. -/
def pyOptIntStr : Option Int → String
  | none => "None"
  | some y => toString y

/-- Upstream response as the script observes it: HTTP status, raw body, and
the parsed JSON rows. -/
structure HttpResponse where
  status : Nat
  body : String
  data : List TeamRating

/-- The fixed endpoint URL. -/
def BASE_URL : String := "https://kenpom.com/api.php"

/-- Acquisition stage `fetch_kenpom_data`: resolve the credential (raising a
`ValueError` naming all three sources when it is absent, before any request),
then issue one authenticated GET and fail via `raise_for_status` on a 4xx or
5xx status, otherwise parse the rows and log the count. -/
def fetch_kenpom_data (cfg : Config) (year : Option Int) (resp : HttpResponse) :
    List Action × Except PipelineError (List TeamRating) :=
  match resolveApiKey cfg with
  | none => ([], .error (.configError apiKeyMessage))
  | some key =>
    let url := BASE_URL ++ "?endpoint=ratings&y=" ++ pyOptIntStr year
    let pre := [Action.logInfo ("Fetching KenPom data for year " ++ pyOptIntStr year),
      Action.httpGet url ("Bearer " ++ key)]
    if 400 ≤ resp.status ∧ resp.status < 600 then
      (pre, .error (.httpError resp.status resp.body))
    else
      (pre ++ [Action.logInfo ("Fetched " ++ toString resp.data.length ++ " teams")],
        .ok resp.data)

/-- Directory part of a path (`os.path.dirname`), simplified to splitting on
the separator; edge cases with repeated or leading separators are not
claim-relevant. -/
def dirname (s : String) : String :=
  String.intercalate "/" ((s.splitOn "/").dropLast)

/-- Path join (`os.path.join`) for the shapes the script produces: the
trailing-separator test is rendered as a last-character check. -/
def pyJoin (d f : String) : String :=
  if d = "" then f else if d.data.getLast? = some '/' then d ++ f else d ++ "/" ++ f

/-- Outcome of the two filesystem writers and the current date string, as an
environment for `create_plot`: the interactive HTML writer and the raster
PNG writer each either succeed or raise (message carried on error). -/
structure RenderEnv where
  htmlResult : Except String Unit
  pngResult : Except String Unit
  now : String

/-- Rendering stage `create_plot`: build the figure, write the HTML artifact
(uncaught on failure), then attempt the PNG export inside `try/except`,
logging a warning and continuing on any raster failure, then log the
summary of inside teams and return the HTML path. -/
def create_plot (df : List TeamRating) (output_path : String) (year : Option Int)
    (renv : RenderEnv) : List Action × Except String String :=
  let fig := buildFig df year renv.now
  let inside := (classify df).1
  let output_dir := if dirname output_path = "" then "." else dirname output_path
  let png_path := pyJoin output_dir "kenpom_ratings.png"
  match renv.htmlResult with
  | .error e => ([Action.writeHtml output_path fig], .error e)
  | .ok _ =>
    let htmlActs := [Action.writeHtml output_path fig,
      Action.logInfo ("Plot saved to " ++ output_path)]
    let pngActs :=
      match renv.pngResult with
      | .ok _ => [Action.writeImage png_path fig,
          Action.logInfo ("PNG saved to " ++ png_path)]
      | .error e => [Action.writeImage png_path fig,
          Action.logWarning ("Could not save PNG image: " ++ e),
          Action.logInfo "HTML plot was saved successfully. PNG export requires Chrome/Chromium to be installed."]
    let summaryActs :=
      [Action.logInfo ("Teams inside the trapezoid: " ++ toString inside.length)] ++
        (if inside.isEmpty then []
         else [Action.logInfo "Highlighted Teams:"] ++
           inside.map (fun r => Action.logTeamLine r.TeamName r.AdjTempo r.AdjEM))
    (htmlActs ++ pngActs ++ summaryActs, .ok output_path)

/-- Entry point `main`: make the output directory, fix the artifact path,
fetch, render, and return the HTML path; any failure is logged with its
message and re-raised. -/
def main (cfg : Config) (year : Option Int) (output_dir : String)
    (resp : HttpResponse) (renv : RenderEnv) :
    List Action × Except PipelineError String :=
  let pre := [Action.makedirs output_dir]
  let output_path := pyJoin output_dir "kenpom_ratings.html"
  let fr := fetch_kenpom_data cfg year resp
  match fr.2 with
  | .error e => (pre ++ fr.1 ++ [Action.logError ("Error in main: " ++ errMsg e)], .error e)
  | .ok df =>
    let cr := create_plot df output_path year renv
    match cr.2 with
    | .error e =>
      (pre ++ fr.1 ++ cr.1 ++ [Action.logError ("Error in main: " ++ errMsg (.renderError e))],
        .error (.renderError e))
    | .ok _ =>
      (pre ++ fr.1 ++ cr.1 ++ [Action.logInfo "Script completed successfully"],
        .ok output_path)

end KenPom

namespace KenPom

/-- The classification loop computes the filter of the rows by the
point-in-polygon predicate and the filter by its negation. -/
theorem classify_eq_filter (l : List TeamRating) :
    classify l =
      (l.filter (fun r => decide (point_in_polygon (rowPoint r) trapezoid_points)),
        l.filter (fun r => !(decide (point_in_polygon (rowPoint r) trapezoid_points)))) := by
  induction l with
  | nil => rfl
  | cons r rs ih =>
    by_cases h : point_in_polygon (rowPoint r) trapezoid_points <;>
      simp [classify, ih, List.filter, h]

/-- C1: for every input list of TeamRating rows, the classification in
`create_plot` places each row in exactly one of the two collections: a row
value is in the input iff it is in one of the collections, no row value is in
both, and the two collections together are a permutation of the input (so
multiplicities are preserved as well). -/
theorem c1_partition_total_disjoint (l : List TeamRating) (r : TeamRating) :
    ((r ∈ (classify l).1 ∨ r ∈ (classify l).2) ↔ r ∈ l) ∧
      ¬ (r ∈ (classify l).1 ∧ r ∈ (classify l).2) ∧
      ((classify l).1 ++ (classify l).2).Perm l := by
  rw [classify_eq_filter]
  refine ⟨?_, ?_, List.filter_append_perm _ l⟩
  · constructor
    · rintro (h | h) <;> exact (List.mem_filter.mp h).1
    · intro h
      by_cases hp : point_in_polygon (rowPoint r) trapezoid_points
      · exact Or.inl (List.mem_filter.mpr ⟨h, by simp [hp]⟩)
      · exact Or.inr (List.mem_filter.mpr ⟨h, by simp [hp]⟩)
  · rintro ⟨h1, h2⟩
    have b1 := (List.mem_filter.mp h1).2
    have b2 := (List.mem_filter.mp h2).2
    simp at b1 b2
    exact b2 b1

/-- C6: each of the two output sequences of the classification is a sublist
of the input, hence its rows appear in the same relative order as in the
input. -/
theorem c6_order_preserved (l : List TeamRating) :
    List.Sublist (classify l).1 l ∧ List.Sublist (classify l).2 l := by
  rw [classify_eq_filter]
  exact ⟨List.filter_sublist l, List.filter_sublist l⟩

/-- C5 counterexample: the claim promises the label "{year}-{year+1} Season"
for every integer year given, but the source guards the label with Python
truthiness (`if year:`), so the integer year 0 falls through to the
current-date branch instead of producing "0-1 Season". -/
theorem c5_counterexample :
    date_str (some 0) "October 12, 2025" = "October 12, 2025" ∧
      date_str (some 0) "October 12, 2025" ≠ "0-1 Season" := by
  constructor <;> decide

/-- C5 (amended): for every nonzero integer year given to `create_plot`, the
season label in the title is "{year}-{year+1} Season"; if no year is given,
the label is instead the current date string. -/
theorem c5_season_label (df : List TeamRating) (y : Int) (now : String) (h : y ≠ 0) :
    (buildFig df (some y) now).titleText =
        "ROAD TO INDIANAPOLIS\n" ++ "Trapezoid of Excellence\n" ++
          (toString y ++ "-" ++ toString (y + 1) ++ " Season") ∧
      (buildFig df none now).titleText =
        "ROAD TO INDIANAPOLIS\n" ++ "Trapezoid of Excellence\n" ++ now := by
  constructor <;> simp [buildFig, date_str, h]

/-- C5 witness: year 2025 yields the label "2025-2026 Season" in the title. -/
theorem c5_season_label_witness :
    (buildFig [] (some 2025) "October 12, 2025").titleText =
      "ROAD TO INDIANAPOLIS\nTrapezoid of Excellence\n2025-2026 Season" := by
  rw [(c5_season_label [] 2025 "October 12, 2025" (by decide)).1]
  decide

/-- C10: the polygon outline trace is the first trace of every built figure,
and its coordinate sequence is exactly the four classification vertices in
the same order with the first vertex repeated at the end to close the path. -/
theorem c10_outline_matches_classification (df : List TeamRating) (year : Option Int)
    (now : String) :
    (buildFig df year now).traces.head? = some polygonTrace ∧
      polygonTrace.xs.zip polygonTrace.ys = trapezoid_points ++ [(64.5, 20)] ∧
      trapezoid_points.head? = some ((64.5 : ℚ), (20 : ℚ)) := by
  refine ⟨?_, rfl, rfl⟩
  simp [buildFig]

/-- C9 counterexample: for the empty input set the built chart has only the
polygon outline trace and no marker trace at all, refuting the claim that
every input yields one outside marker trace and one inside marker trace. -/
theorem c9_counterexample :
    (buildFig [] none "October 12, 2025").traces.length = 1 ∧
      (buildFig [] none "October 12, 2025").traces.countP (fun t => t.mode == "markers") = 0 := by
  constructor <;> rfl

/-- C9 (amended): every built chart has exactly one filled trace (the polygon
outline); a marker trace named for the outside rows appears exactly when some
row is outside, carrying their metric coordinates, their team names as hover
text and the hover template with name and both metrics, and likewise for the
inside rows; the marker trace count matches the non-empty collections. -/
theorem c9_traces (df : List TeamRating) (year : Option Int) (now : String) :
    ((buildFig df year now).traces.countP (fun t => t.fill.isSome) = 1) ∧
      ((buildFig df year now).traces.filter (fun t => t.name == "Outside Trapezoid") =
        if (classify df).2.isEmpty then [] else [outsideTrace (classify df).2]) ∧
      ((buildFig df year now).traces.filter (fun t => t.name == "Inside Trapezoid") =
        if (classify df).1.isEmpty then [] else [insideTrace (classify df).1]) ∧
      ((buildFig df year now).traces.countP (fun t => t.mode == "markers") =
        (if (classify df).2.isEmpty then 0 else 1) +
          (if (classify df).1.isEmpty then 0 else 1)) ∧
      (outsideTrace (classify df).2).text = (classify df).2.map TeamRating.TeamName ∧
      (outsideTrace (classify df).2).xs = (classify df).2.map TeamRating.AdjTempo ∧
      (outsideTrace (classify df).2).ys = (classify df).2.map TeamRating.AdjEM ∧
      (outsideTrace (classify df).2).hovertemplate = some hoverTemplate ∧
      (outsideTrace (classify df).2).markerSymbol = some "circle" ∧
      (outsideTrace (classify df).2).markerSize = some 6 ∧
      (insideTrace (classify df).1).text = (classify df).1.map TeamRating.TeamName ∧
      (insideTrace (classify df).1).xs = (classify df).1.map TeamRating.AdjTempo ∧
      (insideTrace (classify df).1).ys = (classify df).1.map TeamRating.AdjEM ∧
      (insideTrace (classify df).1).hovertemplate = some hoverTemplate ∧
      (insideTrace (classify df).1).markerSymbol = some "star" ∧
      (insideTrace (classify df).1).markerSize = some 10 := by
  cases h2 : (classify df).2.isEmpty <;> cases h1 : (classify df).1.isEmpty <;>
    simp [buildFig, h1, h2, List.countP_append, List.countP_cons, List.filter_append,
      polygonTrace, outsideTrace, insideTrace]

end KenPom

namespace KenPom

/-- C2: if the credential is absent from every configuration source (the
environment variable, into which `load_dotenv` has already merged any local
`.env` file, and the Airflow Variable store), `fetch_kenpom_data` fails with
the configuration error whose message names all three places a user could set
it, and its action trace contains no HTTP request. -/
theorem c2_missing_credential (cfg : Config) (year : Option Int) (resp : HttpResponse)
    (henv : truthy cfg.envKey = none) (hair : airflowValue cfg = none) :
    fetch_kenpom_data cfg year resp = ([], .error (.configError apiKeyMessage)) ∧
      (fetch_kenpom_data cfg year resp).1.filter isHttpAction = [] ∧
      (∃ s t, apiKeyMessage = s ++ "Environment variable: KENPOM_API_KEY" ++ t) ∧
      (∃ s t, apiKeyMessage = s ++ "Airflow Variable" ++ t) ∧
      (∃ s t, apiKeyMessage = s ++ ".env file" ++ t) := by
  have hres : resolveApiKey cfg = none := by
    unfold resolveApiKey
    rw [henv, hair]
  have heq : fetch_kenpom_data cfg year resp = ([], .error (.configError apiKeyMessage)) := by
    unfold fetch_kenpom_data
    rw [hres]
  refine ⟨heq, by rw [heq]; rfl, ?_, ?_, ?_⟩
  · exact ⟨"KENPOM_API_KEY not found. Please set it as:\n1. ",
      "\n2. Airflow Variable: Admin → Variables → Add \x27KENPOM_API_KEY\x27\n3. Or in .env file (for local development)",
      rfl⟩
  · exact ⟨"KENPOM_API_KEY not found. Please set it as:\n1. Environment variable: KENPOM_API_KEY\n2. ",
      ": Admin → Variables → Add \x27KENPOM_API_KEY\x27\n3. Or in .env file (for local development)",
      rfl⟩
  · exact ⟨"KENPOM_API_KEY not found. Please set it as:\n1. Environment variable: KENPOM_API_KEY\n2. Airflow Variable: Admin → Variables → Add \x27KENPOM_API_KEY\x27\n3. Or in ",
      " (for local development)", rfl⟩

/-- C2 witness: with the environment variable set to the empty string (falsy
in Python) and the Airflow Variable also empty, the fetch fails with the
configuration error and performs no action at all. -/
theorem c2_missing_credential_witness :
    truthy (Config.mk (some "") (some (some ""))).envKey = none ∧
      airflowValue (Config.mk (some "") (some (some ""))) = none ∧
      fetch_kenpom_data (Config.mk (some "") (some (some ""))) (some 2026)
          (HttpResponse.mk 200 "[]" []) =
        ([], .error (.configError apiKeyMessage)) :=
  ⟨by decide, by decide,
    (c2_missing_credential (Config.mk (some "") (some (some ""))) (some 2026)
        (HttpResponse.mk 200 "[]" []) (by decide) (by decide)).1⟩

/-- C3: when the credential resolves, the upstream responds with a success
status, and the interactive HTML write succeeds, a raster (PNG) export
failure is caught: the run still succeeds, the entry point returns the path
of the interactive artifact, and a warning naming the raster failure is
logged. -/
theorem c3_raster_best_effort (cfg : Config) (year : Option Int) (output_dir : String)
    (resp : HttpResponse) (renv : RenderEnv) (k : String) (e : String)
    (hkey : resolveApiKey cfg = some k) (hstatus : resp.status < 400)
    (hhtml : renv.htmlResult = .ok ()) (hpng : renv.pngResult = .error e) :
    (main cfg year output_dir resp renv).2 =
        .ok (pyJoin output_dir "kenpom_ratings.html") ∧
      Action.logWarning ("Could not save PNG image: " ++ e) ∈
        (main cfg year output_dir resp renv).1 := by
  have hnot : ¬ (400 ≤ resp.status ∧ resp.status < 600) := by omega
  simp [main, fetch_kenpom_data, create_plot, hkey, hhtml, hpng, hnot]

/-- C3 witness: a concrete run in which the HTML write succeeds and the PNG
export raises returns the interactive artifact path and logs the warning. -/
theorem c3_raster_best_effort_witness :
    (main (Config.mk (some "key") none) (some 2025) "output"
          (HttpResponse.mk 200 "[]" [])
          (RenderEnv.mk (.ok ()) (.error "Chrome not found") "October 12, 2025")).2 =
        .ok "output/kenpom_ratings.html" ∧
      Action.logWarning "Could not save PNG image: Chrome not found" ∈
        (main (Config.mk (some "key") none) (some 2025) "output"
          (HttpResponse.mk 200 "[]" [])
          (RenderEnv.mk (.ok ()) (.error "Chrome not found") "October 12, 2025")).1 := by
  have h := c3_raster_best_effort (Config.mk (some "key") none) (some 2025) "output"
    (HttpResponse.mk 200 "[]" [])
    (RenderEnv.mk (.ok ()) (.error "Chrome not found") "October 12, 2025")
    "key" "Chrome not found" (by decide) (by decide) rfl rfl
  refine ⟨h.1.trans ?_, h.2⟩
  rfl

/-- C4: when the credential resolves but the upstream API responds with a
non-success HTTP status (the 4xx/5xx range that `raise_for_status` raises
for), the run fails with an HTTP error carrying the status and body, the
error propagates out of the entry point, and no chart artifact write of any
kind appears in the action trace. -/
theorem c4_http_error_no_artifact (cfg : Config) (year : Option Int) (output_dir : String)
    (resp : HttpResponse) (renv : RenderEnv) (k : String)
    (hkey : resolveApiKey cfg = some k)
    (h4 : 400 ≤ resp.status) (h6 : resp.status < 600) :
    (main cfg year output_dir resp renv).2 =
        .error (.httpError resp.status resp.body) ∧
      (main cfg year output_dir resp renv).1.filter isWriteAction = [] := by
  have hc : 400 ≤ resp.status ∧ resp.status < 600 := ⟨h4, h6⟩
  simp [main, fetch_kenpom_data, hc, hkey, isWriteAction]

/-- C4 witness: a concrete run against an HTTP 500 response fails with the
HTTP error and writes no artifact. -/
theorem c4_http_error_no_artifact_witness :
    (main (Config.mk (some "key") none) (some 2025) "output"
          (HttpResponse.mk 500 "Internal Server Error" [])
          (RenderEnv.mk (.ok ()) (.ok ()) "October 12, 2025")).2 =
        .error (.httpError 500 "Internal Server Error") ∧
      (main (Config.mk (some "key") none) (some 2025) "output"
          (HttpResponse.mk 500 "Internal Server Error" [])
          (RenderEnv.mk (.ok ()) (.ok ()) "October 12, 2025")).1.filter isWriteAction = [] :=
  c4_http_error_no_artifact (Config.mk (some "key") none) (some 2025) "output"
    (HttpResponse.mk 500 "Internal Server Error" [])
    (RenderEnv.mk (.ok ()) (.ok ()) "October 12, 2025") "key"
    (by decide) (by decide) (by decide)

end KenPom

namespace KenPom

/-- Edges with both endpoints at the same height never cross the ray. -/
theorem crosses_horiz (p a b : Point) (h : a.2 = b.2) : ¬ crosses p a b :=
  fun hc => hc.1 (by rw [h])

/-- On the fixed trapezoid only the two non-horizontal edges can contribute
crossings. -/
theorem crossCount_trapezoid (tx ty : ℚ) :
    crossCount (tx, ty) (edgeList trapezoid_points) =
      (if crosses (tx, ty) (70.2, 20) (72, 40) then 1 else 0) +
        (if crosses (tx, ty) (62.5, 40) (64.5, 20) then 1 else 0) := by
  have h1 : ¬ crosses (tx, ty) (64.5, 20) (70.2, 20) := crosses_horiz _ _ _ rfl
  have h3 : ¬ crosses (tx, ty) (72, 40) (62.5, 40) := crosses_horiz _ _ _ rfl
  simp [trapezoid_points, edgeList, edgeListAux, crossCount, h1, h3]

/-- Characterization of a crossing of the right trapezoid edge. -/
theorem crosses_right_edge (tx ty : ℚ) :
    crosses (tx, ty) (70.2, 20) (72, 40) ↔
      20 < ty ∧ ty ≤ 40 ∧ 1.8 * (40 - ty) ≤ 20 * (72 - tx) := by
  unfold crosses
  constructor
  · rintro ⟨hd, hs⟩
    by_cases h20 : (20 : ℚ) ≥ ty
    · exact absurd ⟨fun _ => le_trans h20 (by norm_num), fun _ => h20⟩ hd
    · by_cases h40 : (40 : ℚ) ≥ ty
      · have hineq := hs.mpr h40
        refine ⟨by linarith [not_le.mp h20], h40, by nlinarith⟩
      · exact absurd ⟨fun hx => absurd hx h20, fun hx => absurd hx h40⟩ hd
  · rintro ⟨h1, h2, h3⟩
    refine ⟨fun hiff => absurd (hiff.mpr h2) (by simp; linarith), ?_⟩
    exact iff_of_true (by nlinarith) h2

/-- Characterization of a crossing of the left trapezoid edge (the closing
edge of the walk). -/
theorem crosses_left_edge (tx ty : ℚ) :
    crosses (tx, ty) (62.5, 40) (64.5, 20) ↔
      20 < ty ∧ ty ≤ 40 ∧ 2 * (ty - 20) < 20 * (64.5 - tx) := by
  unfold crosses
  constructor
  · rintro ⟨hd, hs⟩
    by_cases h20 : (20 : ℚ) ≥ ty
    · exact absurd ⟨fun _ => h20, fun _ => le_trans h20 (by norm_num)⟩ hd
    · by_cases h40 : (40 : ℚ) ≥ ty
      · have hnineq : ¬ ((20 - ty) * (62.5 - 64.5) ≥ (64.5 - tx) * (40 - 20)) :=
          fun hin => absurd (hs.mp hin) h20
        refine ⟨by linarith [not_le.mp h20], h40, by nlinarith [not_le.mp hnineq]⟩
      · exact absurd ⟨fun hx => absurd hx h40, fun hx => absurd hx h20⟩ hd
  · rintro ⟨h1, h2, h3⟩
    refine ⟨fun hiff => absurd (hiff.mp h2) (by simp; linarith), ?_⟩
    exact iff_of_false (by simp; nlinarith) (by simp; linarith)

/-- C7: every point strictly outside the bounding box of the fixed trapezoid
(x range 62.5 to 72, y range 20 to 40) is classified outside by the
point-in-polygon test, and the vertex centroid of the trapezoid is
classified inside. -/
theorem c7_bbox_outside_centroid_inside (p : Point)
    (h : p.1 < 62.5 ∨ 72 < p.1 ∨ p.2 < 20 ∨ 40 < p.2) :
    ¬ point_in_polygon p trapezoid_points ∧
      point_in_polygon (centroidOf trapezoid_points) trapezoid_points := by
  constructor
  · obtain ⟨tx, ty⟩ := p
    dsimp only at h
    unfold point_in_polygon
    rw [crossCount_trapezoid]
    simp only [crosses_right_edge, crosses_left_edge]
    rcases h with hx | hx | hy | hy
    · by_cases h20 : (20 : ℚ) < ty
      · by_cases h40 : ty ≤ (40 : ℚ)
        · rw [if_pos ⟨h20, h40, by nlinarith⟩, if_pos ⟨h20, h40, by nlinarith⟩]
          norm_num
        · rw [if_neg (fun hc => h40 hc.2.1), if_neg (fun hc => h40 hc.2.1)]
          norm_num
      · rw [if_neg (fun hc => h20 hc.1), if_neg (fun hc => h20 hc.1)]
        norm_num
    · rw [if_neg (fun hc => absurd hc.2.2 (not_le.mpr (by nlinarith [hc.2.1]))),
        if_neg (fun hc => absurd hc.2.2 (not_lt.mpr (by nlinarith [hc.1])))]
      norm_num
    · rw [if_neg (fun hc => absurd hc.1 (not_lt.mpr (le_of_lt hy))),
        if_neg (fun hc => absurd hc.1 (not_lt.mpr (le_of_lt hy)))]
      norm_num
    · rw [if_neg (fun hc => absurd hc.2.1 (not_le.mpr hy)),
        if_neg (fun hc => absurd hc.2.1 (not_le.mpr hy))]
      norm_num
  · norm_num [centroidOf, trapezoid_points, point_in_polygon, edgeList, edgeListAux,
      crossCount, crosses]

/-- C7 witness: the origin lies strictly outside the bounding box and is
classified outside; the centroid is classified inside. -/
theorem c7_bbox_outside_centroid_inside_witness :
    ¬ point_in_polygon ((0 : ℚ), (0 : ℚ)) trapezoid_points ∧
      point_in_polygon (centroidOf trapezoid_points) trapezoid_points :=
  c7_bbox_outside_centroid_inside (0, 0) (Or.inl (by norm_num))

end KenPom

namespace KenPom

/-- Symmetry of segment membership in the two endpoints. -/
theorem onSeg_comm (p a b : Point) : OnSeg p a b ↔ OnSeg p b a := by
  unfold OnSeg
  constructor <;> rintro ⟨h1, h2, h3, h4, h5⟩ <;>
    exact ⟨by linear_combination -h1, by rwa [min_comm], by rwa [max_comm],
      by rwa [min_comm], by rwa [max_comm]⟩

/-- A point that is collinear with a non-horizontal edge and lies in its
vertical span lies on the closed edge segment. -/
theorem onSeg_of_collinear_between (p1 p2 a1 a2 b1 b2 : ℚ)
    (hcol : (b1 - a1) * (p2 - a2) = (b2 - a2) * (p1 - a1))
    (hy1 : b2 < p2) (hy2 : p2 ≤ a2) :
    OnSeg (p1, p2) (a1, a2) (b1, b2) := by
  have hab2 : b2 < a2 := lt_of_lt_of_le hy1 hy2
  unfold OnSeg
  dsimp only
  refine ⟨hcol, ?_, ?_, ?_, ?_⟩
  · rcases le_total a1 b1 with hab | hab
    · rw [min_eq_left hab]
      nlinarith [hcol, mul_nonneg (sub_nonneg.2 hab) (sub_nonneg.2 hy2), sub_pos.2 hab2]
    · rw [min_eq_right hab]
      nlinarith [hcol, mul_nonneg (sub_nonneg.2 hab) (le_of_lt (sub_pos.2 hy1)), sub_pos.2 hab2]
  · rcases le_total a1 b1 with hab | hab
    · rw [max_eq_right hab]
      nlinarith [hcol, mul_nonneg (sub_nonneg.2 hab) (le_of_lt (sub_pos.2 hy1)), sub_pos.2 hab2]
    · rw [max_eq_left hab]
      nlinarith [hcol, mul_nonneg (sub_nonneg.2 hab) (sub_nonneg.2 hy2), sub_pos.2 hab2]
  · exact le_of_lt (lt_of_le_of_lt (min_le_right _ _) hy1)
  · exact le_trans hy2 (le_max_left _ _)

/-- Off the closed edge segment, the crossing test does not depend on the
orientation of the edge. -/
theorem crosses_swap (p a b : Point) (hns : ¬ OnSeg p a b) :
    crosses p b a ↔ crosses p a b := by
  obtain ⟨p1, p2⟩ := p
  obtain ⟨a1, a2⟩ := a
  obtain ⟨b1, b2⟩ := b
  unfold crosses
  dsimp only
  by_cases h1 : a2 ≥ p2 <;> by_cases h2 : b2 ≥ p2
  · simp [h1, h2]
  · have hDne : (b2 - p2) * (a1 - b1) ≠ (b1 - p1) * (a2 - b2) := by
      intro hD
      apply hns
      refine onSeg_of_collinear_between p1 p2 a1 a2 b1 b2 ?_ (not_le.mp h2) h1
      linear_combination hD
    constructor
    · rintro ⟨_, hs⟩
      have hi2 := hs.mpr h1
      refine ⟨fun hiff => h2 (hiff.mp h1), iff_of_false (fun hi1 => hDne (by linarith)) h2⟩
    · rintro ⟨_, hs⟩
      have hni1 : ¬ ((b2 - p2) * (a1 - b1) ≥ (b1 - p1) * (a2 - b2)) :=
        fun hi1 => h2 (hs.mp hi1)
      refine ⟨fun hiff => h2 (hiff.mpr h1), iff_of_true ?_ h1⟩
      have := not_le.mp hni1
      linarith
  · have hDne : (b2 - p2) * (a1 - b1) ≠ (b1 - p1) * (a2 - b2) := by
      intro hD
      apply hns
      rw [onSeg_comm]
      refine onSeg_of_collinear_between p1 p2 b1 b2 a1 a2 ?_ (not_le.mp h1) h2
      linear_combination -hD
    constructor
    · rintro ⟨_, hs⟩
      have hni2 : ¬ ((a2 - p2) * (b1 - a1) ≥ (a1 - p1) * (b2 - a2)) :=
        fun hi2 => h1 (hs.mp hi2)
      refine ⟨fun hiff => h1 (hiff.mpr h2), iff_of_true ?_ h2⟩
      have := not_le.mp hni2
      linarith
    · rintro ⟨_, hs⟩
      have hi1 := hs.mpr h2
      refine ⟨fun hiff => h1 (hiff.mp h2), iff_of_false (fun hi2 => hDne (by linarith)) h1⟩
  · simp [h1, h2]

/-- Crossing counts add over list concatenation. -/
theorem crossCount_append (p : Point) (l1 l2 : List (Point × Point)) :
    crossCount p (l1 ++ l2) = crossCount p l1 + crossCount p l2 := by
  induction l1 with
  | nil => simp [crossCount]
  | cons e es ih => simp [crossCount, ih, Nat.add_assoc]

/-- Crossing counts are invariant under list reversal. -/
theorem crossCount_reverse (p : Point) (l : List (Point × Point)) :
    crossCount p l.reverse = crossCount p l := by
  induction l with
  | nil => rfl
  | cons e es ih =>
    simp [List.reverse_cons, crossCount_append, crossCount, ih]
    omega

/-- When the point is off every listed segment, flipping every edge keeps
the crossing count. -/
theorem crossCount_map_swap (p : Point) (l : List (Point × Point))
    (h : ∀ e ∈ l, ¬ OnSeg p e.1 e.2) :
    crossCount p (l.map Prod.swap) = crossCount p l := by
  induction l with
  | nil => rfl
  | cons e es ih =>
    have hs := crosses_swap p e.1 e.2 (h e (List.mem_cons_self e es))
    simp only [List.map_cons, crossCount, Prod.fst_swap, Prod.snd_swap]
    rw [if_congr hs rfl rfl, ih (fun x hx => h x (List.mem_cons_of_mem e hx))]

/-- Appending one vertex appends the corresponding consecutive edge. -/
theorem zipConsec_snoc (l : List Point) (x : Point) :
    zipConsec (l ++ [x]) = zipConsec l ++ (l.getLast?.map (fun a => (a, x))).toList := by
  induction l with
  | nil => rfl
  | cons a as ih =>
    cases as with
    | nil => rfl
    | cons b bs =>
      rw [List.cons_append] at ih
      simp only [List.cons_append, zipConsec, List.append_eq]
      rw [ih]
      simp [zipConsec, List.getLast?_cons_cons]

/-- Consecutive edges of the reversed list are the reversed swapped edges. -/
theorem zipConsec_reverse (l : List Point) :
    zipConsec l.reverse = ((zipConsec l).map Prod.swap).reverse := by
  induction l with
  | nil => rfl
  | cons a as ih =>
    cases as with
    | nil => rfl
    | cons b bs =>
      rw [List.reverse_cons, zipConsec_snoc, ih, List.getLast?_reverse]
      simp [zipConsec]

/-- The edge walk is the consecutive-edge list of the vertex list extended by
the closing vertex. -/
theorem edgeListAux_eq (f : Point) (l : List Point) (prev : Point) :
    edgeListAux f prev l = zipConsec (prev :: l ++ [f]) := by
  induction l generalizing prev with
  | nil => rfl
  | cons w ws ih => simp [edgeListAux, zipConsec, ih w]

/-- Closed form of the edge list of a non-empty polygon. -/
theorem edgeList_cons (v : Point) (vs : List Point) :
    edgeList (v :: vs) = zipConsec ((v :: vs) ++ [v]) := by
  simp [edgeList, edgeListAux_eq]

/-- C8 counterexample: the boundary point (71.1, 30), the midpoint of the
right trapezoid edge, is classified inside for the source vertex order but
outside when the same polygon is traversed in reversed (clockwise versus
counter-clockwise) order, refuting the claim for boundary points. -/
theorem c8_counterexample :
    point_in_polygon ((71.1 : ℚ), (30 : ℚ)) trapezoid_points ∧
      ¬ point_in_polygon ((71.1 : ℚ), (30 : ℚ)) trapezoid_points.reverse := by
  constructor <;>
    norm_num [point_in_polygon, trapezoid_points, edgeList, edgeListAux, crossCount, crosses]

/-- C8 (amended): for every polygon and every point that does not lie on the
polygon boundary (on no closed edge segment of its edge walk), the
point-in-polygon test returns the same result when the vertex list is given
in reversed order. -/
theorem c8_reverse_invariance (p : Point) (poly : List Point)
    (h : ¬ OnBoundary p poly) :
    (point_in_polygon p poly.reverse ↔ point_in_polygon p poly) := by
  have hEdges : ∀ e ∈ edgeList poly, ¬ OnSeg p e.1 e.2 := fun e he hs => h ⟨e, he, hs⟩
  cases poly with
  | nil => exact Iff.rfl
  | cons v vs =>
    unfold point_in_polygon
    suffices hcc : crossCount p (edgeList ((v :: vs).reverse)) =
        crossCount p (edgeList (v :: vs)) by rw [hcc]
    have hrev : (v :: vs).reverse = vs.reverse ++ [v] := List.reverse_cons v vs
    obtain ⟨r0, rt, hr⟩ : ∃ r0 rt, vs.reverse ++ [v] = r0 :: rt := by
      cases hvs : vs.reverse ++ [v] with
      | nil => exact absurd hvs (by simp)
      | cons x xs => exact ⟨x, xs, rfl⟩
    have hr2 : (v :: vs).reverse = r0 :: rt := hrev.trans hr
    have hlast : (r0 :: rt).getLast? = some v := by
      rw [← hr2, List.getLast?_reverse]
      rfl
    have hgl : (v :: vs).getLast? = some r0 := by
      rw [← List.head?_reverse, hr2]
      rfl
    have hsub : ∀ e ∈ zipConsec (v :: vs), ¬ OnSeg p e.1 e.2 := by
      intro e he
      apply hEdges
      rw [edgeList_cons, zipConsec_snoc]
      exact List.mem_append_left _ he
    have hclose : ¬ OnSeg p r0 v := by
      apply hEdges (r0, v)
      rw [edgeList_cons, zipConsec_snoc, hgl]
      exact List.mem_append_right _ (by simp)
    rw [hrev, hr, edgeList_cons, zipConsec_snoc, hlast]
    simp only [Option.map_some', Option.toList_some]
    rw [crossCount_append, ← hr2, zipConsec_reverse, crossCount_reverse,
      crossCount_map_swap p _ hsub]
    rw [edgeList_cons, zipConsec_snoc, hgl]
    simp only [Option.map_some', Option.toList_some]
    rw [crossCount_append]
    have hcongr := crosses_swap p r0 v hclose
    simp only [crossCount]
    rw [if_congr hcongr rfl rfl]

/-- C8 witness: the origin lies on no edge of the trapezoid, and the test
gives the same answer for both traversal orders there. -/
theorem c8_reverse_invariance_witness :
    point_in_polygon ((0 : ℚ), (0 : ℚ)) trapezoid_points.reverse ↔
      point_in_polygon ((0 : ℚ), (0 : ℚ)) trapezoid_points :=
  c8_reverse_invariance (0, 0) trapezoid_points (by
    rintro ⟨e, he, hs⟩
    simp [edgeList, edgeListAux, trapezoid_points] at he
    rcases he with h | h | h | h <;> subst h <;>
      norm_num [OnSeg, min_def, max_def] at hs)

end KenPom
